import Mathlib

/-!
Verification development for the session-deduplication core of the qr-code
analytics backend.

The embedded code:
- `models.SessionFirstSeen` (models.py): the `session_first_seen` table,
  whose `session_id` column is the primary key.
- `utils_session.is_new_user_atomic` (utils_session.py): the atomic claim
  operation, a single `INSERT ... ON CONFLICT (session_id) DO NOTHING
  RETURNING session_id` followed by a commit, with both exception branches
  (`IntegrityError` and the catch-all) rolling back and returning `False`.
- `utils_session.cleanup_old_sessions` (utils_session.py): the retention
  sweep.
- `routes/public.is_new_user` and `routes/public.log_scan` (public.py): the
  scan-logging endpoint and its existence-check classifier.
- `routes/social.log_social_click` (social.py): the social-click endpoint,
  which calls `is_new_user_atomic`.

The store is modelled as a list of rows; a database round trip is one atomic
step, so a set of concurrent invocations is modelled as an arbitrary
serialization (an arbitrary list) of such steps, which is exactly the
guarantee PostgreSQL gives for `INSERT ... ON CONFLICT` on a primary key:
conflicting speculative inserts of the same key are ordered by the engine and
exactly the winning insert makes `RETURNING` produce a row. Exceptions of the
driver are modelled by a `DBOutcome` value: the Python function catches every
exception and returns normally, so the embedding is a total function.
Timestamps (`func.now()` server defaults) are `Nat` values supplied by the
caller of the model.
-/

/-- A row of the `session_first_seen` table (class `SessionFirstSeen` in
models.py): primary-key column `session_id`, timestamp columns
`first_seen_at` and `created_at` (both `server_default=func.now()`),
`first_action_type`, and the nullable context columns `first_branch_id`
and `first_qr_code_id`. -/
structure SessionFirstSeen where
  session_id : String
  first_seen_at : Nat
  first_action_type : String
  first_branch_id : Option Int
  first_qr_code_id : Option Int
  created_at : Nat
deriving Repr, DecidableEq

/-- The `session_first_seen` table contents. -/
abbrev Store := List SessionFirstSeen

/-- Number of rows of the store keyed by `sid`. -/
def claimedCount (st : Store) (sid : String) : Nat :=
  (st.filter (fun r => r.session_id == sid)).length

/-- Whether some row keyed by `sid` exists (the primary-key conflict test). -/
def isClaimed (st : Store) (sid : String) : Bool :=
  st.any (fun r => r.session_id == sid)

/-- The store primitive used by `is_new_user_atomic` (utils_session.py lines
61-78): `INSERT INTO session_first_seen ... ON CONFLICT (session_id) DO
NOTHING RETURNING session_id`. If a row with the primary key already exists
the insert is suppressed and `RETURNING` yields nothing; otherwise the row is
inserted (`first_seen_at` and `created_at` filled by `func.now()`, modelled by
`now`) and `RETURNING` yields the key. -/
def insertOnConflictDoNothing (st : Store) (now : Nat) (sid action : String)
    (bid qid : Option Int) : Store × Option String :=
  if isClaimed st sid then (st, none)
  else (st ++ [⟨sid, now, action, bid, qid, now⟩], some sid)

/-- Outcome of the database round trip inside `is_new_user_atomic`:
it either succeeds, raises `sqlalchemy.exc.IntegrityError`, or raises some
other (infrastructure) exception. -/
inductive DBOutcome where
  | ok
  | integrityError
  | infraError
deriving Repr, DecidableEq

/-- Level of a `logger` call in utils_session.py. -/
inductive LogLevel where
  | info
  | debug
  | error
deriving Repr, DecidableEq

/-- One `logger` call: its level and the session id mentioned in the message
(empty when the message carries no session id). -/
structure LogEntry where
  level : LogLevel
  sid : String
deriving Repr, DecidableEq

/-- `utils_session.is_new_user_atomic` (utils_session.py lines 18-103).
On a successful round trip (`DBOutcome.ok`) it executes the conditional
insert, commits, reads `inserted = result.scalar_one_or_none()` and then
tests Python truthiness, `if inserted:` — so it returns `True` exactly when
`RETURNING` yielded the key and that key is a non-empty string. A winning
insert of the empty session id commits its row but returns `False`, the
empty string being falsy. It logs at info level on both sides of that test;
the returned store is the committed store, and the commit happens before the
result value is computed. On `IntegrityError` it logs at debug level, rolls
back and returns `False`; on any other exception it logs at error level,
rolls back and returns `False`. The roll-back leaves the store as it was.
Result: (committed store, returned boolean, logger calls). -/
def is_new_user_atomic (outcome : DBOutcome) (st : Store) (now : Nat)
    (session_id action_type : String) (branch_id qr_code_id : Option Int) :
    Store × Bool × List LogEntry :=
  match outcome with
  | .ok =>
      let r := insertOnConflictDoNothing st now session_id action_type branch_id qr_code_id
      match r.2 with
      | some inserted =>
          if inserted == "" then (r.1, false, [⟨.info, session_id⟩])
          else (r.1, true, [⟨.info, session_id⟩])
      | none => (r.1, false, [⟨.info, session_id⟩])
  | .integrityError => (st, false, [⟨.debug, session_id⟩])
  | .infraError => (st, false, [⟨.error, session_id⟩])

/-- The arguments of one invocation of `is_new_user_atomic`, together with
the outcome of its store round trip and the server clock at its commit. -/
structure ClaimCall where
  outcome : DBOutcome
  now : Nat
  session_id : String
  action_type : String
  branch_id : Option Int
  qr_code_id : Option Int
deriving Repr, DecidableEq

/-- Apply one claim invocation to the store. -/
def stepStore (st : Store) (c : ClaimCall) : Store :=
  (is_new_user_atomic c.outcome st c.now c.session_id c.action_type c.branch_id c.qr_code_id).1

/-- Store after a serialized sequence of claim invocations. -/
def runStore (st : Store) : List ClaimCall → Store
  | [] => st
  | c :: cs => runStore (stepStore st c) cs

/-- Store and list of returned booleans after a serialized sequence of claim
invocations (the serialization order of a set of concurrent calls). -/
def runTrace (st : Store) : List ClaimCall → Store × List Bool
  | [] => (st, [])
  | c :: cs =>
      let r := is_new_user_atomic c.outcome st c.now c.session_id c.action_type c.branch_id c.qr_code_id
      let rest := runTrace r.1 cs
      (rest.1, r.2.1 :: rest.2)

/-! ### Basic lemmas about the claim operation -/

/-- The boolean returned by `is_new_user_atomic` is `true` exactly when the
round trip succeeded, the key was previously unclaimed, and the key is a
non-empty string (the truthiness test `if inserted:` on the returned
scalar). -/
lemma atomic_result_eq (o : DBOutcome) (st : Store) (now : Nat)
    (sid a : String) (b q : Option Int) :
    (is_new_user_atomic o st now sid a b q).2.1
      = (decide (o = DBOutcome.ok) && !(isClaimed st sid) && !(sid == "")) := by
  cases o <;> simp [is_new_user_atomic, insertOnConflictDoNothing]
  by_cases h : isClaimed st sid
  · simp [h]
  · by_cases he : sid = ""
    · subst he
      simp [h]
    · simp [h, he]

/-- The store after `is_new_user_atomic` is the input store, or the input
store with one row keyed by the invoked `session_id` appended. -/
lemma atomic_store_cases (o : DBOutcome) (st : Store) (now : Nat)
    (sid a : String) (b q : Option Int) :
    (is_new_user_atomic o st now sid a b q).1 = st ∨
      (is_new_user_atomic o st now sid a b q).1
        = st ++ [⟨sid, now, a, b, q, now⟩] := by
  cases o <;> simp [is_new_user_atomic, insertOnConflictDoNothing]
  by_cases h : isClaimed st sid
  · simp [h]
  · by_cases he : sid = ""
    · subst he
      simp [h]
    · simp [h, he]

/-- A key is claimed in a store extended by one row exactly when it was
claimed before or the new row carries it. -/
lemma isClaimed_append (st : Store) (r : SessionFirstSeen) (sid : String) :
    isClaimed (st ++ [r]) sid = (isClaimed st sid || (r.session_id == sid)) := by
  simp [isClaimed]

/-- After a successful round trip invoking `session_id = sid`, the key `sid`
is claimed in the committed store. -/
lemma atomic_claimed_after_ok (st : Store) (now : Nat) (sid a : String)
    (b q : Option Int) :
    isClaimed (is_new_user_atomic .ok st now sid a b q).1 sid = true := by
  by_cases h : isClaimed st sid
  · simp [is_new_user_atomic, insertOnConflictDoNothing, h]
  · by_cases he : sid = ""
    · subst he
      simp [is_new_user_atomic, insertOnConflictDoNothing, h, isClaimed_append]
    · simp [is_new_user_atomic, insertOnConflictDoNothing, h, he, isClaimed_append]

/-- Claimed keys stay claimed across any claim invocation: the operation only
appends rows, never removes or rewrites one. -/
lemma atomic_claimed_mono (o : DBOutcome) (st : Store) (now : Nat)
    (sid a x : String) (b q : Option Int)
    (h : isClaimed st x = true) :
    isClaimed (is_new_user_atomic o st now sid a b q).1 x = true := by
  rcases atomic_store_cases o st now sid a b q with hc | hc <;>
    simp [hc, isClaimed] at * <;> simp_all

/-- An already-claimed key makes every later invocation for it return
`false`, whatever the outcome of the round trip. -/
lemma atomic_claimed_result_false (o : DBOutcome) (st : Store) (now : Nat)
    (sid a : String) (b q : Option Int) (h : isClaimed st sid = true) :
    (is_new_user_atomic o st now sid a b q).2.1 = false := by
  rw [atomic_result_eq, h]
  simp

/-- An already-claimed key makes the invocation for it leave the store
untouched, whatever the outcome of the round trip. -/
lemma atomic_claimed_store_frame (o : DBOutcome) (st : Store) (now : Nat)
    (sid a : String) (b q : Option Int) (h : isClaimed st sid = true) :
    (is_new_user_atomic o st now sid a b q).1 = st := by
  cases o <;> simp [is_new_user_atomic, insertOnConflictDoNothing, h]

/-! ### Retention sweep -/

/-- PostgreSQL interval input restricted to the only shape the cleanup query
could mean, a day count: a string of the form "<digits> days" (at least one
digit) parses to its day count; anything else is rejected by the interval
parser. -/
def parseIntervalDays (s : String) : Option Nat :=
  let cs := s.toList
  let digits := cs.takeWhile (fun c => c.isDigit)
  let rest := cs.dropWhile (fun c => c.isDigit)
  if digits ≠ [] ∧ rest = [' ', 'd', 'a', 'y', 's'] then
    some (digits.foldl (fun n c => 10 * n + (c.toNat - 48)) 0)
  else none

/-- Text of the interval literal in the DELETE statement of
`cleanup_old_sessions` (utils_session.py line 164): the bind parameter
`:days` was written inside the single-quoted SQL string literal
spelled `:days days` in single quotes. The driver substitution cannot turn it into the bound
number: SQLAlchemy replaces `:days` by the dialect placeholder even inside
quotes, leaving a placeholder character sequence inside the literal, and
under the alternative reading the literal reaches the engine verbatim.
Under either reading the text handed to the interval parser is not of the
form "<digits> days". -/
def cleanupIntervalLiteral : String := ":days days"

/-- `utils_session.cleanup_old_sessions` (utils_session.py lines 148-178):
executes `DELETE FROM session_first_seen WHERE created_at < NOW() - INTERVAL
<literal> RETURNING session_id` (the literal being `cleanupIntervalLiteral`
in single quotes) with `days_old` bound to `days`, commits,
and returns how many rows came back; on any exception it logs at error
level, rolls back and returns 0. Because `:days` sits inside the string
literal (see `cleanupIntervalLiteral`), the interval text never parses, the
statement raises, and the except branch runs, so `days_old` never reaches
the query. `now` is the server clock in seconds. Result: (store, returned
count, logger calls). -/
def cleanup_old_sessions (st : Store) (now : Nat) (days_old : Nat) :
    Store × Nat × List LogEntry :=
  match parseIntervalDays cleanupIntervalLiteral with
  | some d =>
      let cutoff := now - d * 86400
      let deleted := st.filter (fun r => r.created_at < cutoff)
      let kept := st.filter (fun r => !(r.created_at < cutoff : Bool))
      (kept, deleted.length, [⟨.info, ""⟩])
  | none => (st, 0, [⟨.error, ""⟩])

/-! ### The two endpoints consuming the classification -/

/-- A row of the `qr_scans` table (class `QRScan` in models.py), restricted
to the columns the session-deduplication claims are about. -/
structure QRScanRow where
  session_id : String
  is_new_user : Bool
  qr_code_id : Option Int
deriving Repr, DecidableEq

/-- A row of the `social_clicks` table (class `SocialClick` in models.py),
restricted to the columns the session-deduplication claims are about. -/
structure SocialClickRow where
  platform : String
  session_id : String
  is_new_user : Bool
  branch_id : Option Int
deriving Repr, DecidableEq

/-- The three tables the two endpoints read or write. -/
structure AppDB where
  qr_scans : List QRScanRow
  social_clicks : List SocialClickRow
  session_first_seen : Store
deriving Repr, DecidableEq

/-- Freshly migrated database: all three tables empty. -/
def emptyAppDB : AppDB := ⟨[], [], []⟩

/-- `routes/public.is_new_user` (public.py lines 24-44): SELECT an id from
`qr_scans` for the given session_id (limit 1); if found, return False;
otherwise SELECT from `social_clicks` and return True exactly when nothing
is found there either. A pure existence check over the two log tables; it
never reads or writes `session_first_seen`. -/
def public_is_new_user (db : AppDB) (session_id : String) : Bool :=
  if db.qr_scans.any (fun r => r.session_id == session_id) then false
  else !(db.social_clicks.any (fun r => r.session_id == session_id))

/-- Session-id extraction in `routes/public.log_scan` (public.py line 216):
`data.get("session_id", str(uuid.uuid4()))` — the fresh UUID string is used
only when the body has no `session_id` field at all; a present value is used
verbatim, even the empty string. -/
def scan_session_id (body_session : Option String) (fresh : String) : String :=
  match body_session with
  | some s => s
  | none => fresh

/-- `routes/public.log_scan` (public.py lines 209-261), restricted to the
session-relevant fields: extract the session id from the body, classify via
`public_is_new_user` (the existence check, not via `is_new_user_atomic`),
insert a `qr_scans` row tagged with the classification, and commit. The
`session_first_seen` table is never touched by this endpoint. Result:
(database, reported is_new_user). -/
def log_scan (db : AppDB) (body_session : Option String) (fresh : String)
    (qr_code_id : Option Int) : AppDB × Bool :=
  let sid := scan_session_id body_session fresh
  let is_new := public_is_new_user db sid
  ({ db with qr_scans := db.qr_scans ++ [⟨sid, is_new, qr_code_id⟩] }, is_new)

/-- Session-id selection in `routes/social.log_social_click` (social.py
lines 80-89): the `qr_session` cookie when it is non-empty, else the body
field `session_id` (`data.get("session_id", "")`) when non-empty, else a
fresh UUID string. Python truthiness on a string is non-emptiness. -/
def social_session_id (cookie body_session : Option String) (fresh : String) : String :=
  let cookie_s := cookie.getD ""
  let frontend := body_session.getD ""
  if cookie_s == "" then (if frontend == "" then fresh else frontend)
  else cookie_s

/-- `routes/social.log_social_click` (social.py lines 66-127), restricted to
the session-relevant fields: select the session id, classify via
`is_new_user_atomic` on the `session_first_seen` store with action type
"social_click", insert a `social_clicks` row tagged with the classification,
and commit. Result: (database, reported is_new_user). -/
def log_social_click (outcome : DBOutcome) (db : AppDB) (now : Nat)
    (cookie body_session : Option String) (fresh platform : String)
    (branch_id : Option Int) : AppDB × Bool :=
  let sid := social_session_id cookie body_session fresh
  let r := is_new_user_atomic outcome db.session_first_seen now sid
    "social_click" branch_id none
  let is_new := r.2.1
  ({ db with
      session_first_seen := r.1,
      social_clicks := db.social_clicks ++ [⟨platform, sid, is_new, branch_id⟩] },
    is_new)

/-- Sample UUID string, standing for one `str(uuid.uuid4())` result. -/
def uuidA : String := "f47ac10b-58cc-4372-a567-0e02b2c3d479"

/-- Another sample UUID string. -/
def uuidB : String := "9b2d7c52-3f1e-4ab0-8c6d-5e4f3a2b1c0d"

/-! ### Run-level lemmas -/

/-- Refinement of `atomic_store_cases`: the append case only occurs when the
key was unclaimed before the call. -/
lemma atomic_store_cases_unclaimed (o : DBOutcome) (st : Store) (now : Nat)
    (sid a : String) (b q : Option Int) :
    (is_new_user_atomic o st now sid a b q).1 = st ∨
      (isClaimed st sid = false ∧
        (is_new_user_atomic o st now sid a b q).1
          = st ++ [⟨sid, now, a, b, q, now⟩]) := by
  cases o <;> simp [is_new_user_atomic, insertOnConflictDoNothing]
  by_cases h : isClaimed st sid
  · simp [h]
  · by_cases he : sid = ""
    · subst he
      simp [h]
    · simp [h, he]

/-- A returned `true` can only come from a successful round trip, and leaves
the key claimed in the committed store. -/
lemma atomic_claimed_of_result_true (o : DBOutcome) (st : Store) (now : Nat)
    (sid a : String) (b q : Option Int)
    (h : (is_new_user_atomic o st now sid a b q).2.1 = true) :
    isClaimed (is_new_user_atomic o st now sid a b q).1 sid = true := by
  rw [atomic_result_eq] at h
  cases o with
  | ok => exact atomic_claimed_after_ok st now sid a b q
  | integrityError => simp at h
  | infraError => simp at h

/-- An unclaimed key has no row at all. -/
lemma claimedCount_eq_zero_of_not_claimed (st : Store) (sid : String)
    (h : isClaimed st sid = false) : claimedCount st sid = 0 := by
  induction st with
  | nil => rfl
  | cons r rs ih =>
      rw [isClaimed, List.any_cons, Bool.or_eq_false_iff] at h
      rw [claimedCount, List.filter_cons, h.1]
      exact ih h.2

/-- Row count of a key across an append of one row. -/
lemma claimedCount_append (st : Store) (r : SessionFirstSeen) (sid : String) :
    claimedCount (st ++ [r]) sid
      = claimedCount st sid + (if r.session_id == sid then 1 else 0) := by
  rw [claimedCount, claimedCount, List.filter_append]
  by_cases h : r.session_id == sid <;> simp [h]

/-- Key uniqueness of the store (at most one row per session id). -/
def UniquePerSession (st : Store) : Prop :=
  ∀ sid : String, claimedCount st sid ≤ 1

/-- One claim invocation preserves key uniqueness: the conditional insert
appends a row only for a previously unclaimed key. -/
lemma atomic_unique_preserved (o : DBOutcome) (st : Store) (now : Nat)
    (sid a : String) (b q : Option Int) (h : UniquePerSession st) :
    UniquePerSession (is_new_user_atomic o st now sid a b q).1 := by
  rcases atomic_store_cases_unclaimed o st now sid a b q with hc | ⟨hun, hc⟩
  · rw [hc]; exact h
  · intro x
    rw [hc, claimedCount_append]
    by_cases hx : sid = x
    · subst hx
      rw [claimedCount_eq_zero_of_not_claimed st sid hun]
      simp
    · have hb : ((⟨sid, now, a, b, q, now⟩ : SessionFirstSeen).session_id == x) = false := by
        simp [hx]
      rw [hb]
      simpa using h x

/-- Claimed keys stay claimed across any serialized sequence of claim
invocations. -/
lemma runStore_claimed_mono (cs : List ClaimCall) :
    ∀ (st : Store) (x : String), isClaimed st x = true →
      isClaimed (runStore st cs) x = true := by
  induction cs with
  | nil => intro st x h; exact h
  | cons c cs ih =>
      intro st x h
      exact ih (stepStore st c) x
        (atomic_claimed_mono c.outcome st c.now c.session_id c.action_type x
          c.branch_id c.qr_code_id h)

/-- Once a key is claimed, a serialized sequence of further invocations all
carrying that key returns `false` throughout. -/
lemma runTrace_claimed_all_false (sid : String) (cs : List ClaimCall) :
    ∀ (st : Store), (∀ c ∈ cs, c.session_id = sid) → isClaimed st sid = true →
      ((runTrace st cs).2).count true = 0 := by
  induction cs with
  | nil => intro st _ _; simp [runTrace]
  | cons c cs ih =>
      intro st hsid h
      have hc : c.session_id = sid := hsid c (by simp)
      have hclaimed : isClaimed (stepStore st c) sid = true :=
        atomic_claimed_mono c.outcome st c.now c.session_id c.action_type sid
          c.branch_id c.qr_code_id h
      have hres : (is_new_user_atomic c.outcome st c.now c.session_id
          c.action_type c.branch_id c.qr_code_id).2.1 = false := by
        rw [hc]
        exact atomic_claimed_result_false c.outcome st c.now sid c.action_type
          c.branch_id c.qr_code_id h
      have h0 := ih (stepStore st c) (fun d hd => hsid d (by simp [hd])) hclaimed
      simp only [runTrace]
      rw [List.count_cons]
      simp [hres]
      exact h0

/-! ### Claim theorems -/

/-- Claim C1, amended to non-empty session ids: for every non-empty session
id and every set of N concurrent invocations of `is_new_user_atomic` with
that identical session id against a store where the id is unclaimed, exactly
one invocation returns `true` and all others return `false`. Concurrency is
modelled as an arbitrary serialization order `cs` of the N atomic
insert-and-commit round trips (the order the primary-key constraint engine
settles them in); each round trip succeeds. The restriction to non-empty ids
is forced by the truthiness test `if inserted:` in the code (see
`single_winner_fails_for_empty_sid`); the specification itself declares a
non-empty session id as the input precondition of the operation. -/
theorem claim_single_winner (sid : String) (st : Store) (cs : List ClaimCall)
    (hok : ∀ c ∈ cs, c.outcome = DBOutcome.ok)
    (hsid : ∀ c ∈ cs, c.session_id = sid)
    (hne : cs ≠ [])
    (hst : isClaimed st sid = false)
    (hsid_ne : sid ≠ "") :
    ((runTrace st cs).2).count true = 1 := by
  cases cs with
  | nil => exact absurd rfl hne
  | cons c cs =>
      have hc : c.session_id = sid := hsid c (by simp)
      have ho : c.outcome = DBOutcome.ok := hok c (by simp)
      have hres : (is_new_user_atomic c.outcome st c.now c.session_id
          c.action_type c.branch_id c.qr_code_id).2.1 = true := by
        rw [atomic_result_eq, hc, ho, hst]
        simp [hsid_ne]
      have hclaimed : isClaimed (stepStore st c) sid = true := by
        simp only [stepStore, ho, hc]
        exact atomic_claimed_after_ok st c.now sid c.action_type c.branch_id c.qr_code_id
      have h0 := runTrace_claimed_all_false sid cs (stepStore st c)
        (fun d hd => hsid d (by simp [hd])) hclaimed
      simp only [runTrace]
      rw [List.count_cons]
      simp [hres]
      exact h0

/-- Witness for C1: two racing claims of session `s1` on the empty store,
in one serialization order; exactly one of the two returns `true`. -/
theorem claim_single_winner_witness :
    ((runTrace []
      [⟨.ok, 1, "s1", "qr_scan", none, some 5⟩,
       ⟨.ok, 1, "s1", "social_click", some 3, none⟩]).2).count true = 1 :=
  claim_single_winner "s1" []
    [⟨.ok, 1, "s1", "qr_scan", none, some 5⟩,
     ⟨.ok, 1, "s1", "social_click", some 3, none⟩]
    (by decide) (by decide) (by decide) (by decide) (by decide)

/-- Counterexample to claim C1 as stated (quantified over every session id):
for the empty session id, a set of concurrent claims against an initially
unclaimed store yields ZERO invocations returning `true` — here a single
invocation, whose insert wins and commits its row (second conjunct), yet
which returns `false` because `if inserted:` tests Python truthiness and the
empty string is falsy. The claim asserts exactly one `true`, never zero. -/
theorem single_winner_fails_for_empty_sid :
    ((runTrace [] [⟨.ok, 0, "", "qr_scan", none, none⟩]).2).count true = 0
    ∧ isClaimed (runTrace [] [⟨.ok, 0, "", "qr_scan", none, none⟩]).1 "" = true := by
  decide

/-- Claim C2: after any serialized sequence of claim invocations (any mix of
session ids, outcomes and arguments) from a store satisfying key uniqueness,
at most one `session_first_seen` row exists per session id. Uniqueness is
enforced by the conditional insert of the primary-key constraint
(`insertOnConflictDoNothing`), the only write the operation performs. -/
theorem claim_store_at_most_one_row (cs : List ClaimCall) :
    ∀ st : Store, UniquePerSession st → UniquePerSession (runStore st cs) := by
  induction cs with
  | nil => intro st h; exact h
  | cons c cs ih =>
      intro st h
      exact ih (stepStore st c)
        (atomic_unique_preserved c.outcome st c.now c.session_id c.action_type
          c.branch_id c.qr_code_id h)

/-- Witness for C2: three invocations (two of them for the same id) from the
empty store leave at most one row per session id. -/
theorem claim_store_at_most_one_row_witness :
    UniquePerSession (runStore []
      [⟨.ok, 1, "s1", "qr_scan", none, some 5⟩,
       ⟨.ok, 2, "s1", "social_click", some 3, none⟩,
       ⟨.ok, 3, "s2", "qr_scan", none, none⟩]) :=
  claim_store_at_most_one_row
    [⟨.ok, 1, "s1", "qr_scan", none, some 5⟩,
     ⟨.ok, 2, "s1", "social_click", some 3, none⟩,
     ⟨.ok, 3, "s2", "qr_scan", none, none⟩]
    [] (fun _ => Nat.zero_le 1)

/-- Claim C3: once a claim invocation for a session id has returned `true`,
every later invocation with that id — with any action type or context
arguments, after any interleaved claim traffic, and whatever the outcome of
its own round trip — returns `false` and raises nothing: the duplicate is a
normal returning outcome. (Raising nothing holds by construction: the
embedding of the operation is a total function, the Python code catching
every exception.) The claim operation never deletes rows, so no retention
purge is involved. -/
theorem claim_duplicate_returns_false (o0 : DBOutcome) (st : Store)
    (now0 : Nat) (sid a0 : String) (b0 q0 : Option Int)
    (hfirst : (is_new_user_atomic o0 st now0 sid a0 b0 q0).2.1 = true)
    (cs : List ClaimCall) (o : DBOutcome) (now : Nat) (a : String)
    (b q : Option Int) :
    (is_new_user_atomic o
      (runStore (is_new_user_atomic o0 st now0 sid a0 b0 q0).1 cs)
      now sid a b q).2.1 = false := by
  have h1 : isClaimed (is_new_user_atomic o0 st now0 sid a0 b0 q0).1 sid = true :=
    atomic_claimed_of_result_true o0 st now0 sid a0 b0 q0 hfirst
  have h2 := runStore_claimed_mono cs
    (is_new_user_atomic o0 st now0 sid a0 b0 q0).1 sid h1
  exact atomic_claimed_result_false o
    (runStore (is_new_user_atomic o0 st now0 sid a0 b0 q0).1 cs)
    now sid a b q h2

/-- Witness for C3: session `s1` claims successfully on the empty store;
after an unrelated claim of `s2`, a second claim of `s1` with a different
action type returns `false`. -/
theorem claim_duplicate_returns_false_witness :
    (is_new_user_atomic .ok
      (runStore (is_new_user_atomic .ok [] 0 "s1" "qr_scan" none (some 5)).1
        [⟨.ok, 1, "s2", "qr_scan", none, none⟩])
      2 "s1" "social_click" none none).2.1 = false :=
  claim_duplicate_returns_false .ok [] 0 "s1" "qr_scan" none (some 5)
    (by decide) [⟨.ok, 1, "s2", "qr_scan", none, none⟩] .ok 2 "social_click"
    none none

/-- Claim C4 fails on the code (evaluation at the failing input): on a fresh
database, a scan logged for session `s1` is classified by the existence
check `public_is_new_user`, writes nothing to `session_first_seen`, and a
social click for the same session immediately after is also classified as
new — whereas the atomic claim operation, had the scan path used it as the
claim states, would classify the second action as returning (final
conjunct). -/
theorem scan_path_skips_atomic_claim :
    (log_scan emptyAppDB (some "s1") uuidA (some 5)).2 = true
    ∧ (log_scan emptyAppDB (some "s1") uuidA (some 5)).1.session_first_seen = []
    ∧ (log_social_click .ok (log_scan emptyAppDB (some "s1") uuidA (some 5)).1
        7 none (some "s1") uuidB "facebook" none).2 = true
    ∧ (is_new_user_atomic .ok
        (is_new_user_atomic .ok [] 0 "s1" "qr_scan" none (some 5)).1
        7 "s1" "social_click" none none).2.1 = false := by
  decide

/-- Claim C5: when the store round trip raises (any outcome other than
success), `is_new_user_atomic` returns `false` (the safe default), leaves
the store unchanged (roll-back), and reports the condition to the logger
(debug level for the expected duplicate case, error level for any other
infrastructure failure) — and it raises nothing to its caller, which holds
by construction: the embedding is a total function because the Python code
catches every exception. -/
theorem claim_degrade_safe (o : DBOutcome) (st : Store) (now : Nat)
    (sid a : String) (b q : Option Int) (h : o ≠ DBOutcome.ok) :
    (is_new_user_atomic o st now sid a b q).2.1 = false
    ∧ (is_new_user_atomic o st now sid a b q).1 = st
    ∧ (is_new_user_atomic o st now sid a b q).2.2
        = [⟨if o = DBOutcome.integrityError then LogLevel.debug
            else LogLevel.error, sid⟩] := by
  cases o with
  | ok => exact absurd rfl h
  | integrityError => exact ⟨rfl, rfl, rfl⟩
  | infraError => exact ⟨rfl, rfl, rfl⟩

/-- Witness for C5: an infrastructure failure on the empty store returns
`false`, changes nothing, and logs at error level. -/
theorem claim_degrade_safe_witness :
    (is_new_user_atomic .infraError [] 0 "s1" "qr_scan" none none).2.1 = false
    ∧ (is_new_user_atomic .infraError [] 0 "s1" "qr_scan" none none).1 = []
    ∧ (is_new_user_atomic .infraError [] 0 "s1" "qr_scan" none none).2.2
        = [⟨if DBOutcome.infraError = DBOutcome.integrityError then LogLevel.debug
            else LogLevel.error, "s1"⟩] :=
  claim_degrade_safe .infraError [] 0 "s1" "qr_scan" none none (by decide)

/-- Claim C6: whenever `is_new_user_atomic` returns `true`, the claim row is
in the committed store the operation hands back — in the embedding the
returned store is the post-commit store (the code commits before reading the
RETURNING result), so a `true` result is only ever observed with the row
durably committed; equivalently, if the row is not committed the result was
`false`. -/
theorem claim_new_committed_before_return (o : DBOutcome) (st : Store)
    (now : Nat) (sid a : String) (b q : Option Int)
    (h : (is_new_user_atomic o st now sid a b q).2.1 = true) :
    isClaimed (is_new_user_atomic o st now sid a b q).1 sid = true :=
  atomic_claimed_of_result_true o st now sid a b q h

/-- Witness for C6: the winning claim of `s1` on the empty store leaves the
row committed. -/
theorem claim_new_committed_before_return_witness :
    isClaimed (is_new_user_atomic .ok [] 5 "s1" "qr_scan" none none).1 "s1" = true :=
  claim_new_committed_before_return .ok [] 5 "s1" "qr_scan" none none (by decide)

/-- Claim C7: when a row for the session id already exists, a claim
invocation — whatever its action type, branch, QR-code arguments, clock or
round-trip outcome — leaves the whole store unchanged, so every field of the
existing row (`first_seen_at`, `first_action_type`, `first_branch_id`,
`first_qr_code_id`, `created_at`) is untouched: a claim row is created once
and never updated by the claim operation. -/
theorem claim_row_never_updated (o : DBOutcome) (st : Store) (now : Nat)
    (sid a : String) (b q : Option Int) (h : isClaimed st sid = true) :
    (is_new_user_atomic o st now sid a b q).1 = st :=
  atomic_claimed_store_frame o st now sid a b q h

/-- Witness for C7: a second claim of `s1` with a different action type,
context and clock leaves the existing row byte-for-byte unchanged. -/
theorem claim_row_never_updated_witness :
    (is_new_user_atomic .ok [⟨"s1", 1, "qr_scan", some 3, some 5, 1⟩] 99 "s1"
      "social_click" none none).1 = [⟨"s1", 1, "qr_scan", some 3, some 5, 1⟩] :=
  claim_row_never_updated .ok [⟨"s1", 1, "qr_scan", some 3, some 5, 1⟩] 99 "s1"
    "social_click" none none (by decide)

/-- Claim C8: the boolean returned by `is_new_user_atomic` depends only on
the session id and on whether that id is already claimed in the store: two
invocations from the same store with the same id but different action types,
branch ids, QR-code ids (and clocks) return the same boolean; and an
invocation never changes the claim status of any other session id. -/
theorem claim_result_context_independent (o : DBOutcome) (st : Store)
    (n1 n2 : Nat) (sid a1 a2 : String) (b1 q1 b2 q2 : Option Int)
    (x : String) (hx : x ≠ sid) :
    (is_new_user_atomic o st n1 sid a1 b1 q1).2.1
      = (is_new_user_atomic o st n2 sid a2 b2 q2).2.1
    ∧ isClaimed (is_new_user_atomic o st n1 sid a1 b1 q1).1 x = isClaimed st x := by
  constructor
  · rw [atomic_result_eq, atomic_result_eq]
  · rcases atomic_store_cases o st n1 sid a1 b1 q1 with hc | hc
    · rw [hc]
    · rw [hc, isClaimed_append]
      have hne : sid ≠ x := fun he => hx he.symm
      have hb : ((⟨sid, n1, a1, b1, q1, n1⟩ : SessionFirstSeen).session_id == x)
          = false := by simp [hne]
      rw [hb]
      simp

/-- Witness for C8: on the empty store, claiming `s1` with scan context and
with social context returns the same boolean, and does not change the claim
status of `s2`. -/
theorem claim_result_context_independent_witness :
    ((is_new_user_atomic .ok [] 1 "s1" "qr_scan" none (some 5)).2.1
      = (is_new_user_atomic .ok [] 2 "s1" "social_click" (some 3) none).2.1)
    ∧ isClaimed (is_new_user_atomic .ok [] 1 "s1" "qr_scan" none (some 5)).1 "s2"
        = isClaimed [] "s2" :=
  claim_result_context_independent .ok [] 1 2 "s1" "qr_scan" "social_click"
    none (some 5) (some 3) none "s2" (by decide)

/-- A row 100 days old at a clock of day 100 (timestamps in seconds). -/
def oldRow : SessionFirstSeen := ⟨"s1", 0, "qr_scan", none, none, 0⟩

/-- Claim C9 fails on the code (evaluation at the failing input): with one
row 100 days old and a 90-day threshold, `cleanup_old_sessions` deletes
nothing and returns 0 with the store unchanged (logging at error level) —
the malformed interval literal (see `cleanupIntervalLiteral`) makes the
DELETE raise on every call, so the purge never deletes the rows the claim
says it deletes and never returns their count. -/
theorem cleanup_purges_nothing :
    cleanup_old_sessions [oldRow] (100 * 86400) 90
      = ([oldRow], 0, [⟨LogLevel.error, ""⟩]) := by
  decide

/-- Formalization of claim C10 as stated: for every request handled by the
two endpoints, the session id used for the classification is non-empty
(given that a freshly synthesized UUID string is non-empty). -/
def sessionIdAlwaysNonEmpty : Prop :=
  (∀ (body : Option String) (fresh : String), fresh ≠ "" →
      scan_session_id body fresh ≠ "")
  ∧ (∀ (cookie body : Option String) (fresh : String), fresh ≠ "" →
      social_session_id cookie body fresh ≠ "")

/-- Counterexample to claim C10: a scan request whose body carries a present
but empty `session_id` field is classified under the empty string — the
`data.get` fallback synthesizes a UUID only when the field is absent, so the
non-empty-session-id precondition is not always satisfied. -/
theorem sessionIdAlwaysNonEmpty_false : ¬ sessionIdAlwaysNonEmpty := by
  intro h
  exact h.1 (some "") uuidA (by decide) rfl

/-- Claim C10 amended: the social-click endpoint always classifies under a
non-empty session id (non-empty cookie, else non-empty body field, else
fresh UUID); the scan endpoint synthesizes the fresh UUID exactly when the
body has no `session_id` field, and uses a present body value verbatim —
including the empty string. -/
theorem session_id_synthesis (cookie body : Option String) (fresh s : String)
    (hf : fresh ≠ "") :
    social_session_id cookie body fresh ≠ ""
    ∧ scan_session_id none fresh = fresh
    ∧ scan_session_id (some s) fresh = s := by
  refine ⟨?_, rfl, rfl⟩
  unfold social_session_id
  by_cases hc : (cookie.getD "") == ""
  · by_cases hfr : (body.getD "") == ""
    · simp [hc, hfr]
      exact hf
    · simp [hc, hfr]
      simpa using hfr
  · simp [hc]
    simpa using hc

/-- Witness for the amended C10: a social click with no cookie and no body
session uses the fresh UUID (non-empty), and the scan extraction behaves as
stated on an absent and on a present body field. -/
theorem session_id_synthesis_witness :
    social_session_id none none uuidA ≠ ""
    ∧ scan_session_id none uuidA = uuidA
    ∧ scan_session_id (some "s1") uuidA = "s1" :=
  session_id_synthesis none none uuidA "s1" (by decide)
